import Mathlib

/-!
Verification of structural properties of the `tike_content` repository.

The repository consists of two Jupyter notebooks
(`tesscut-in-the-cloud.ipynb` and the cloud-data-access notebook).
We embed each notebook as a list of cells; a code cell carries a shallow
embedding of its Python statements in a small AST that covers the subset
of Python actually occurring in the notebooks (imports, assignments,
expression statements, shell invocations) plus marker constructors for
the statement kinds the claims quantify over (function/class definitions,
try/except, loops, conditionals), none of which occur in the source.
Markdown cells carry only their cell type; the one piece of markdown
content the claims reference (the S3 cube-URI template and its example
instantiation) is embedded separately as `cubeUriTemplate` and
`exampleCubeUriMarkdown`.
-/

/-- A part of a Python f-string: either a literal piece of text or a
replacement field `\x7bname:format\x7d` with its format spec. -/
inductive FPart where
  | lit (s : String)
  | field (x : String) (fmt : String)
deriving DecidableEq, Repr

mutual

/-- Expressions of the Python subset used by the notebooks. -/
inductive Expr where
  | intLit (n : Nat)
  | boolLit (b : Bool)
  | strLit (s : String)
  | fstr (parts : List FPart)
  | name (x : String)
  | attr (e : Expr) (f : String)
  | subscript (e : Expr) (ix : Expr)
  | tuple (es : List Expr)
  | binop (op : String) (l : Expr) (r : Expr)
  | call (callee : Expr) (args : List Arg)

/-- A call argument: positional or keyword. -/
inductive Arg where
  | pos (e : Expr)
  | kw (x : String) (e : Expr)

end

/-- Statements of the Python subset used by the notebooks.  The compound
statement kinds (`funcDef`, `classDef`, `tryExceptStmt`, `raiseStmt`,
`forStmt`, `whileStmt`, `ifStmt`, `withStmt`) never occur in the source;
they are recorded as markers so that the claims "no cell defines a
function / handles an error / branches" are about the transcription
rather than vacuous. -/
inductive Stmt where
  | importMod (m : String)
  | importAs (m : String) (a : String)
  | fromImport (m : String) (x : String)
  | assign (targets : List String) (rhs : Expr)
  | exprStmt (e : Expr)
  | shell (tokens : List String)
  | funcDef (x : String)
  | classDef (x : String)
  | tryExceptStmt
  | raiseStmt
  | forStmt
  | whileStmt
  | ifStmt
  | withStmt

/-- A notebook cell: its `cell_type` JSON field, its `id` JSON field when
present, and for code cells the embedded statements. -/
structure Cell where
  cell_type : String
  cellId : Option String
  code : List Stmt

/-- Shorthand for a markdown cell with a given id. -/
def mdCell (i : String) : Cell := ⟨"markdown", some i, []⟩

/-- Shorthand for a markdown cell without an id (notebook 2). -/
def mdCellAnon : Cell := ⟨"markdown", none, []⟩

/-- The f-string template
`s3://stpubdata/tess/public/mast/tess-s\x7bsector:04d\x7d-\x7bcamera\x7d-\x7bccd\x7d-cube.fits`
appearing both in the first notebook's introductory markdown and in the
`obvious-party` code cell. -/
def cubeUriTemplate : List FPart :=
  [ .lit "s3://stpubdata/tess/public/mast/tess-s",
    .field "sector" "04d",
    .lit "-",
    .field "camera" "",
    .lit "-",
    .field "ccd" "",
    .lit "-cube.fits" ]

/-- The example URI given in the first notebook's introductory markdown
for sector 11, camera 4, ccd 1. -/
def exampleCubeUriMarkdown : String :=
  "s3://stpubdata/tess/public/mast/tess-s0011-4-1-cube.fits"

/-- Code cell `recent-avenue`:
`import astrocut` / `astrocut.__version__`. -/
def cellRecentAvenue : Cell :=
  ⟨"code", some "recent-avenue",
    [ .importMod "astrocut",
      .exprStmt (.attr (.name "astrocut") "__version__") ]⟩

/-- Code cell `wireless-walker`:
`from astropy.coordinates import SkyCoord` /
`target_crd = SkyCoord.from_name("Pi Men")`. -/
def cellWirelessWalker : Cell :=
  ⟨"code", some "wireless-walker",
    [ .fromImport "astropy.coordinates" "SkyCoord",
      .assign ["target_crd"]
        (.call (.attr (.name "SkyCoord") "from_name") [.pos (.strLit "Pi Men")]) ]⟩

/-- Code cell `obvious-party`:
`sector, camera, ccd = 27, 3, 3` /
`cube_file = f"s3://stpubdata/tess/public/mast/tess-s\x7bsector:04d\x7d-\x7bcamera\x7d-\x7bccd\x7d-cube.fits"`. -/
def cellObviousParty : Cell :=
  ⟨"code", some "obvious-party",
    [ .assign ["sector", "camera", "ccd"]
        (.tuple [.intLit 27, .intLit 3, .intLit 3]),
      .assign ["cube_file"] (.fstr cubeUriTemplate) ]⟩

/-- Code cell `conscious-employment`:
`import nest_asyncio` / `nest_asyncio.apply()` /
`from astrocut import CutoutFactory` / `factory = CutoutFactory()` /
`factory.cube_cut(cube_file, coordinates=target_crd, cutout_size=11,
target_pixel_file="astrocut-result.fits")`. -/
def cellConsciousEmployment : Cell :=
  ⟨"code", some "conscious-employment",
    [ .importMod "nest_asyncio",
      .exprStmt (.call (.attr (.name "nest_asyncio") "apply") []),
      .fromImport "astrocut" "CutoutFactory",
      .assign ["factory"] (.call (.name "CutoutFactory") []),
      .exprStmt (.call (.attr (.name "factory") "cube_cut")
        [ .pos (.name "cube_file"),
          .kw "coordinates" (.name "target_crd"),
          .kw "cutout_size" (.intLit 11),
          .kw "target_pixel_file" (.strLit "astrocut-result.fits") ]) ]⟩

/-- Code cell `administrative-green`:
`import lightkurve as lk` / `tpf = lk.read("astrocut-result.fits")` /
`tpf.plot();`. -/
def cellAdministrativeGreen : Cell :=
  ⟨"code", some "administrative-green",
    [ .importAs "lightkurve" "lk",
      .assign ["tpf"]
        (.call (.attr (.name "lk") "read") [.pos (.strLit "astrocut-result.fits")]),
      .exprStmt (.call (.attr (.name "tpf") "plot") []) ]⟩

/-- Notebook 1, `tesscut-in-the-cloud.ipynb`: its twelve cells in order. -/
def notebook1 : List Cell :=
  [ mdCell "tight-supplement",
    mdCell "listed-bandwidth",
    cellRecentAvenue,
    mdCell "exciting-spider",
    cellWirelessWalker,
    mdCell "inclusive-category",
    cellObviousParty,
    mdCell "molecular-myrtle",
    cellConsciousEmployment,
    mdCell "herbal-hollywood",
    cellAdministrativeGreen,
    mdCell "scenic-enemy" ]

/-- Notebook 2, astroquery code cell:
`from astroquery.mast import Observations` /
`obs = Observations.query_object("Proxima Cen", radius="0s")` /
`want = (obs[...] == "TESS") & (obs[...] == 11) & (obs[...] == 'timeseries')` /
`data_prod = Observations.get_product_list(obs[want])` /
`filt_prod = Observations.filter_products(data_prod, description="Target pixel files")` /
`Observations.enable_cloud_dataset(provider='AWS')` /
`manifest = Observations.download_products(filt_prod, cloud_only=True)`. -/
def cellAstroquery : Cell :=
  ⟨"code", none,
    [ .fromImport "astroquery.mast" "Observations",
      .assign ["obs"]
        (.call (.attr (.name "Observations") "query_object")
          [.pos (.strLit "Proxima Cen"), .kw "radius" (.strLit "0s")]),
      .assign ["want"]
        (.binop "&"
          (.binop "&"
            (.binop "=="
              (.subscript (.name "obs") (.strLit "obs_collection"))
              (.strLit "TESS"))
            (.binop "=="
              (.subscript (.name "obs") (.strLit "sequence_number"))
              (.intLit 11)))
          (.binop "=="
            (.subscript (.name "obs") (.strLit "dataproduct_type"))
            (.strLit "timeseries"))),
      .assign ["data_prod"]
        (.call (.attr (.name "Observations") "get_product_list")
          [.pos (.subscript (.name "obs") (.name "want"))]),
      .assign ["filt_prod"]
        (.call (.attr (.name "Observations") "filter_products")
          [.pos (.name "data_prod"), .kw "description" (.strLit "Target pixel files")]),
      .exprStmt
        (.call (.attr (.name "Observations") "enable_cloud_dataset")
          [.kw "provider" (.strLit "AWS")]),
      .assign ["manifest"]
        (.call (.attr (.name "Observations") "download_products")
          [.pos (.name "filt_prod"), .kw "cloud_only" (.boolLit true)]) ]⟩

/-- Notebook 2, lightkurve code cell:
`from astroquery.mast import Observations` /
`Observations.enable_cloud_dataset(provider='AWS')` /
`import lightkurve as lk` /
`search = lk.search_targetpixelfile("Proxima Cen", sector=11, author="SPOC")` /
`pixelfile = search[0].download(download_dir=".")`. -/
def cellLightkurve : Cell :=
  ⟨"code", none,
    [ .fromImport "astroquery.mast" "Observations",
      .exprStmt
        (.call (.attr (.name "Observations") "enable_cloud_dataset")
          [.kw "provider" (.strLit "AWS")]),
      .importAs "lightkurve" "lk",
      .assign ["search"]
        (.call (.attr (.name "lk") "search_targetpixelfile")
          [ .pos (.strLit "Proxima Cen"),
            .kw "sector" (.intLit 11),
            .kw "author" (.strLit "SPOC") ]),
      .assign ["pixelfile"]
        (.call (.attr (.subscript (.name "search") (.intLit 0)) "download")
          [.kw "download_dir" (.strLit ".")]) ]⟩

/-- Notebook 2, first aws-cli code cell. -/
def cellAwsLs : Cell :=
  ⟨"code", none,
    [ .shell ["aws", "s3", "ls", "s3://stpubdata/tess/public/", "--no-sign-request"] ]⟩

/-- Notebook 2, second aws-cli code cell (Proxima Cen directory listing). -/
def cellAwsLsTid : Cell :=
  ⟨"code", none,
    [ .shell ["aws", "s3", "ls",
        "s3://stpubdata/tess/public/tid/s0011/0000/0003/8885/7263/",
        "--no-sign-request"] ]⟩

/-- Notebook 2, aws-cli copy code cell. -/
def cellAwsCp : Cell :=
  ⟨"code", none,
    [ .shell ["aws", "s3", "cp",
        "s3://stpubdata/tess/public/tid/s0011/0000/0003/8885/7263/tess2019112060037-s0011-0000000388857263-0143-s_tp.fits",
        ".", "--no-sign-request"] ]⟩

/-- Notebook 2, s3fs code cell:
`import s3fs` / `fs = s3fs.S3FileSystem(anon=True)` /
`fs.ls('s3://stpubdata/tess/public/tid/s0011/0000/0003/8885/7263/', refresh=True)` /
`f = fs.get('s3://...tp.fits', 'proxima_cen_tp.fits')`. -/
def cellS3fs : Cell :=
  ⟨"code", none,
    [ .importMod "s3fs",
      .assign ["fs"]
        (.call (.attr (.name "s3fs") "S3FileSystem") [.kw "anon" (.boolLit true)]),
      .exprStmt
        (.call (.attr (.name "fs") "ls")
          [ .pos (.strLit "s3://stpubdata/tess/public/tid/s0011/0000/0003/8885/7263/"),
            .kw "refresh" (.boolLit true) ]),
      .assign ["f"]
        (.call (.attr (.name "fs") "get")
          [ .pos (.strLit "s3://stpubdata/tess/public/tid/s0011/0000/0003/8885/7263/tess2019112060037-s0011-0000000388857263-0143-s_tp.fits"),
            .pos (.strLit "proxima_cen_tp.fits") ]) ]⟩

/-- Notebook 2, the cloud-data-access notebook: its eighteen cells in order. -/
def notebook2 : List Cell :=
  [ mdCellAnon,          -- How to work with data in the cloud?
    mdCellAnon,          -- 1. Using astroquery
    cellAstroquery,
    mdCellAnon,          -- You can read more about this feature ...
    mdCellAnon,          -- 2. Using lightkurve
    cellLightkurve,
    mdCellAnon,          -- Again, the call to enable_cloud_dataset ...
    mdCellAnon,          -- 3. Using the AWS command-line tool
    cellAwsLs,
    mdCellAnon,          -- The data in this bucket follow ...
    cellAwsLsTid,
    mdCellAnon,          -- We can copy files from this location ...
    cellAwsCp,
    mdCellAnon,          -- See the AWS command line interface documentation ...
    mdCellAnon,          -- 4. Using s3fs
    cellS3fs,
    mdCellAnon,          -- 5. Using astrocut
    mdCellAnon ]         -- Further reading

/-- The repository's source: the two notebook documents. -/
def repository : List (List Cell) := [notebook1, notebook2]

/-! ## Static analysis of the embedded cells -/

mutual

/-- All call expressions occurring in an expression, the expression itself
included when it is a call. -/
def exprCalls : Expr → List Expr
  | .attr e _ => exprCalls e
  | .subscript e ix => exprCalls e ++ exprCalls ix
  | .tuple es => exprListCalls es
  | .binop _ l r => exprCalls l ++ exprCalls r
  | .call c args => Expr.call c args :: (exprCalls c ++ argListCalls args)
  | _ => []

def exprListCalls : List Expr → List Expr
  | [] => []
  | e :: es => exprCalls e ++ exprListCalls es

def argListCalls : List Arg → List Expr
  | [] => []
  | a :: rest => argCalls a ++ argListCalls rest

def argCalls : Arg → List Expr
  | .pos e => exprCalls e
  | .kw _ e => exprCalls e

end

mutual

/-- All variable names referenced in an expression. -/
def exprNames : Expr → List String
  | .name x => [x]
  | .attr e _ => exprNames e
  | .subscript e ix => exprNames e ++ exprNames ix
  | .tuple es => exprListNames es
  | .binop _ l r => exprNames l ++ exprNames r
  | .call c args => exprNames c ++ argListNames args
  | _ => []

def exprListNames : List Expr → List String
  | [] => []
  | e :: es => exprNames e ++ exprListNames es

def argListNames : List Arg → List String
  | [] => []
  | a :: rest => argNames a ++ argListNames rest

def argNames : Arg → List String
  | .pos e => exprNames e
  | .kw _ e => exprNames e

end

mutual

/-- All string literals occurring in an expression, the literal parts of
f-strings included. -/
def exprStrs : Expr → List String
  | .strLit s => [s]
  | .fstr parts => parts.filterMap fun p =>
      match p with
      | .lit s => some s
      | .field _ _ => none
  | .attr e _ => exprStrs e
  | .subscript e ix => exprStrs e ++ exprStrs ix
  | .tuple es => exprListStrs es
  | .binop _ l r => exprStrs l ++ exprStrs r
  | .call c args => exprStrs c ++ argListStrs args
  | _ => []

def exprListStrs : List Expr → List String
  | [] => []
  | e :: es => exprStrs e ++ exprListStrs es

def argListStrs : List Arg → List String
  | [] => []
  | a :: rest => argStrs a ++ argListStrs rest

def argStrs : Arg → List String
  | .pos e => exprStrs e
  | .kw _ e => exprStrs e

end

/-- The root name of an attribute/subscript/call chain
(e.g. the root of `search[0].download` is `search`). -/
def exprRoot : Expr → Option String
  | .name x => some x
  | .attr e _ => exprRoot e
  | .subscript e _ => exprRoot e
  | .call c _ => exprRoot c
  | _ => none

/-- The expressions directly contained in a statement. -/
def stmtExprs : Stmt → List Expr
  | .assign _ rhs => [rhs]
  | .exprStmt e => [e]
  | _ => []

/-- All call expressions in a statement. -/
def stmtCalls (s : Stmt) : List Expr := (stmtExprs s).flatMap exprCalls

/-- The names a statement binds: an import binds the module or the
imported/aliased name, an assignment binds its targets. -/
def stmtBinds : Stmt → List String
  | .importMod m => [m]
  | .importAs _ a => [a]
  | .fromImport _ x => [x]
  | .assign ts _ => ts
  | _ => []

/-- The module named by an import statement, if any. -/
def stmtImportedModule : Stmt → Option String
  | .importMod m => some m
  | .importAs m _ => some m
  | .fromImport m _ => some m
  | _ => none

/-- A statement is simple when it is an import, an assignment, an
expression statement or a shell invocation — i.e. not a function/class
definition, not error handling, not control flow. -/
def stmtSimple : Stmt → Bool
  | .importMod _ | .importAs _ _ | .fromImport _ _
  | .assign _ _ | .exprStmt _ | .shell _ => true
  | _ => false

/-- A statement defines a function or a class. -/
def stmtDefines : Stmt → Bool
  | .funcDef _ | .classDef _ => true
  | _ => false

/-- A statement is an error-handling or control-flow construct
(try/except, raise, loop, conditional, with). -/
def stmtErrorHandling : Stmt → Bool
  | .tryExceptStmt | .raiseStmt | .forStmt | .whileStmt | .ifStmt | .withStmt => true
  | _ => false

/-- All statements of a notebook's code cells, in execution order. -/
def notebookStmts (nb : List Cell) : List Stmt := nb.flatMap Cell.code

/-- All call expressions of a notebook. -/
def notebookCalls (nb : List Cell) : List Expr := (notebookStmts nb).flatMap stmtCalls

/-- The callee root names of all calls of a notebook. -/
def notebookCallRoots (nb : List Cell) : List String :=
  (notebookCalls nb).filterMap fun c =>
    match c with
    | .call callee _ => exprRoot callee
    | _ => none

/-- The modules imported by a notebook. -/
def notebookImports (nb : List Cell) : List String :=
  (notebookStmts nb).filterMap stmtImportedModule

/-- The leading tokens of the shell commands of a notebook. -/
def notebookShellHeads (nb : List Cell) : List String :=
  (notebookStmts nb).filterMap fun s =>
    match s with
    | .shell ts => ts.head?
    | _ => none

/-- The first component of a dotted module path. -/
def moduleRoot (m : String) : String :=
  String.mk (m.data.takeWhile fun c => c ≠ '.')

/-! ## Externality analysis

A name is *external* when it is bound by an import or assigned a value
derived from an external-library object.  Every call the notebooks make
should have an external callee root. -/

/-- Whether the value of an expression is (derived from) an
external-library object, given the set `ext` of external names. -/
def valueExternal (ext : List String) : Expr → Bool
  | .name x => ext.contains x
  | .attr e _ => valueExternal ext e
  | .subscript e _ => valueExternal ext e
  | .binop _ l r => valueExternal ext l || valueExternal ext r
  | .call c _ =>
    match exprRoot c with
    | some r => ext.contains r
    | none => false
  | _ => false

/-- Extend the set of external names with what a statement binds:
imports bind external modules/objects; an assignment binds its targets
externally when its right-hand side is an external value. -/
def extendExt (ext : List String) : Stmt → List String
  | .importMod m => m :: ext
  | .importAs _ a => a :: ext
  | .fromImport _ x => x :: ext
  | .assign ts rhs => if valueExternal ext rhs then ts ++ ext else ext
  | _ => ext

/-- A call expression whose callee root is an external name. -/
def callExternal (ext : List String) : Expr → Bool
  | .call callee _ =>
    match exprRoot callee with
    | some r => ext.contains r
    | none => false
  | _ => false

/-- Check, threading the external-name environment through the statements
in execution order, that every call has an external callee root. -/
def stmtsCallsExternal : List String → List Stmt → Bool
  | _, [] => true
  | ext, s :: rest =>
    (stmtCalls s).all (callExternal ext) && stmtsCallsExternal (extendExt ext s) rest

/-- Every call of the notebook, starting from an empty environment,
resolves to an external-library object. -/
def notebookCallsExternal (nb : List Cell) : Bool :=
  stmtsCallsExternal [] (notebookStmts nb)

/-! ## Per-cell dependence analysis (claim C1) -/

/-- The names a cell binds (imports and assignment targets). -/
def cellBound (c : Cell) : List String := c.code.flatMap stmtBinds

/-- The names a cell references in its expressions. -/
def cellUsed (c : Cell) : List String := (c.code.flatMap stmtExprs).flatMap exprNames

/-- The names a cell references but does not bind itself. -/
def cellFree (c : Cell) : List String :=
  (cellUsed c).filter fun x => !(cellBound c).contains x

/-- The number of call expressions in a cell. -/
def cellCallCount (c : Cell) : Nat := (c.code.flatMap stmtCalls).length

/-- Cell `i` of notebook `nb` is independent of the other cells: no name
it references without binding is bound by another cell. -/
def cellIndependent (nb : List Cell) (i : Nat) : Bool :=
  match nb.get? i with
  | none => true
  | some c =>
    (cellFree c).all fun x =>
      nb.enum.all fun p => decide (p.1 = i) || !(cellBound p.2).contains x

/-- The claim of C1, as stated: every code cell of both notebooks is
independent of every other cell and contains exactly one call. -/
def c1ClaimHolds : Bool :=
  repository.all fun nb =>
    (List.range nb.length).all fun i =>
      match nb.get? i with
      | none => true
      | some c => decide (c.cell_type ≠ "code") ||
          (cellIndependent nb i && decide (cellCallCount c = 1))

/-! ## File-name extraction (claims C5, C6) -/

/-- The keyword arguments of a call expression. -/
def callKwargs : Expr → List (String × Expr)
  | .call _ args =>
    args.filterMap fun a =>
      match a with
      | .kw x e => some (x, e)
      | .pos _ => none
  | _ => []

/-- The string values of every `target_pixel_file` keyword argument of
any call in notebook 1 (the file names `cube_cut` saves to). -/
def targetPixelFileArgs : List String :=
  (notebookCalls notebook1).flatMap fun c =>
    (callKwargs c).filterMap fun p =>
      if p.1 = "target_pixel_file" then
        match p.2 with
        | .strLit s => some s
        | _ => none
      else none

/-- The string arguments of every `lk.read` call in notebook 1
(the file names the plotting cell reads). -/
def lkReadArgs : List String :=
  (notebookCalls notebook1).flatMap fun c =>
    match c with
    | .call (.attr (.name "lk") "read") args =>
      args.filterMap fun a =>
        match a with
        | .pos (.strLit s) => some s
        | _ => none
    | _ => []

/-- A string that names a FITS file. -/
def isFits (s : String) : Bool := List.isSuffixOf ".fits".data s.data

/-- All FITS file-name strings occurring anywhere in a notebook
(string literals, f-string literal parts, shell tokens). -/
def notebookFitsStrings (nb : List Cell) : List String :=
  (notebookStmts nb).flatMap fun s =>
    match s with
    | .shell ts => ts.filter isFits
    | _ => ((stmtExprs s).flatMap exprStrs).filter isFits

/-- The FITS file-name strings of a notebook that occur in *file-name
position*: as a direct (positional or keyword) string argument of a call,
as a string or f-string assigned to a variable, or as a shell-command
token. -/
def notebookFitsFilenamePos (nb : List Cell) : List String :=
  (notebookStmts nb).flatMap fun s =>
    (match s with
     | .shell ts => ts.filter isFits
     | .assign _ (.strLit v) => if isFits v then [v] else []
     | .assign _ (.fstr parts) =>
       (parts.filterMap fun p =>
         match p with
         | .lit v => some v
         | .field _ _ => none).filter isFits
     | _ => []) ++
    (stmtCalls s).flatMap fun c =>
      match c with
      | .call _ args =>
        (args.filterMap fun a =>
          match a with
          | .pos (.strLit v) => some v
          | .kw _ (.strLit v) => some v
          | _ => none).filter isFits
      | _ => []

/-! ## Concurrency and credentials analyses (claims C8, C9) -/

/-- Module names related to threads, processes, or concurrent tasks. -/
def concurrencyModules : List String :=
  ["threading", "multiprocessing", "concurrent", "asyncio", "subprocess", "nest_asyncio"]

/-- The calls of a notebook whose callee root is a concurrency-related
module. -/
def concurrencyCalls (nb : List Cell) : List Expr :=
  (notebookCalls nb).filter fun c =>
    match c with
    | .call callee _ =>
      match exprRoot callee with
      | some r => concurrencyModules.contains r
      | none => false
    | _ => false

/-- Exactly the call `nest_asyncio.apply()` with no arguments. -/
def isNestAsyncioApply : Expr → Bool
  | .call (.attr (.name "nest_asyncio") "apply") [] => true
  | _ => false

/-- All tokens of the shell commands of a notebook. -/
def notebookShellTokens (nb : List Cell) : List String :=
  (notebookStmts nb).flatMap fun s =>
    match s with
    | .shell ts => ts
    | _ => []

/-- The token lists of the aws-cli invocations of a notebook. -/
def awsInvocations (nb : List Cell) : List (List String) :=
  (notebookStmts nb).filterMap fun s =>
    match s with
    | .shell ts => if ts.head? = some "aws" then some ts else none
    | _ => none

/-- The calls of a notebook that construct an `s3fs.S3FileSystem`. -/
def s3fsConstructorCalls (nb : List Cell) : List Expr :=
  (notebookCalls nb).filter fun c =>
    match c with
    | .call (.attr (.name "s3fs") "S3FileSystem") _ => true
    | _ => false

/-- The call carries the keyword argument `anon=True`. -/
def hasAnonTrue (c : Expr) : Bool :=
  (callKwargs c).any fun p => p.1 = "anon" && (match p.2 with
    | .boolLit b => b
    | _ => false)

/-! ## Python decimal formatting (claim C4)

Semantics of `str(n)` and of the `04d` format spec for the non-negative
integers the template is instantiated with: decimal digits, zero-padded
on the left to a minimum width of four. -/

/-- Decimal digits of `n`, least significant first, with explicit fuel
(`fuel ≥ n` suffices); `natDigitsAux n n` is the digit list of `n`,
empty for `n = 0`. -/
def natDigitsAux : Nat → Nat → List Nat
  | 0, _ => []
  | _ + 1, 0 => []
  | fuel + 1, n + 1 => ((n + 1) % 10) :: natDigitsAux fuel ((n + 1) / 10)

/-- Decimal digits of `n`, least significant first. -/
def pyDigits (n : Nat) : List Nat := natDigitsAux n n

/-- Python `str(n)` for a non-negative integer `n`. -/
def pyStrNat (n : Nat) : String :=
  if n = 0 then "0"
  else String.mk ((pyDigits n).reverse.map fun d => Char.ofNat (48 + d))

/-- Left-pad a string with zeros to a minimum width of four characters. -/
def pad4 (s : String) : String :=
  if s.length < 4 then String.mk (List.replicate (4 - s.length) '0') ++ s else s

/-- Python `format(n, "04d")` for a non-negative integer `n`. -/
def pyFormat04d (n : Nat) : String := pad4 (pyStrNat n)

/-- Apply a format spec to a value: `04d` pads to width four, the empty
spec is plain `str`. -/
def applyFormat (fmt : String) (n : Nat) : String :=
  if fmt = "04d" then pyFormat04d n else pyStrNat n

/-- Evaluate an f-string over an environment assigning (non-negative
integer) values to the replacement-field names. -/
def evalFString (env : String → Nat) : List FPart → String
  | [] => ""
  | .lit s :: rest => s ++ evalFString env rest
  | .field x fmt :: rest => applyFormat fmt (env x) ++ evalFString env rest

/-- The environment binding `sector`, `camera`, `ccd` as the notebook's
`obvious-party` cell does (all other names unused). -/
def envOf (sector camera ccd : Nat) : String → Nat := fun x =>
  if x = "sector" then sector
  else if x = "camera" then camera
  else if x = "ccd" then ccd
  else 0

/-! ## Digit-length lemmas -/

/-- With enough fuel, a number below `10 ^ k` has at most `k` decimal
digits. -/
theorem natDigitsAux_length_le (fuel : Nat) :
    ∀ n k : Nat, n ≤ fuel → n < 10 ^ k → (natDigitsAux fuel n).length ≤ k := by
  induction fuel with
  | zero =>
    intro n k hn _
    have hn0 : n = 0 := Nat.le_zero.mp hn
    subst hn0
    simp [natDigitsAux]
  | succ f ih =>
    intro n k hn hk
    match n with
    | 0 => simp [natDigitsAux]
    | m + 1 =>
      match k with
      | 0 =>
        simp only [pow_zero] at hk
        omega
      | k' + 1 =>
        simp only [natDigitsAux, List.length_cons]
        have h1 : (m + 1) / 10 ≤ f := by
          have := Nat.div_lt_self (Nat.succ_pos m) (by norm_num : 1 < 10)
          omega
        have h2 : (m + 1) / 10 < 10 ^ k' := by
          rw [Nat.div_lt_iff_lt_mul (by norm_num : 0 < 10)]
          calc m + 1 < 10 ^ (k' + 1) := hk
            _ = 10 ^ k' * 10 := by rw [pow_succ]
        have := ih ((m + 1) / 10) k' h1 h2
        omega

/-- `str(n)` has at most four characters when `n < 10000`. -/
theorem pyStrNat_length_le (n : Nat) (h : n < 10000) : (pyStrNat n).length ≤ 4 := by
  unfold pyStrNat
  by_cases h0 : n = 0
  · simp only [h0, if_true]
    decide
  · simp only [h0, if_false]
    show (((pyDigits n).reverse.map fun d => Char.ofNat (48 + d)).length) ≤ 4
    rw [List.length_map, List.length_reverse]
    exact natDigitsAux_length_le n n 4 (Nat.le_refl n) (by omega)

/-- Zero-padding to width four yields exactly four characters whenever the
input has at most four. -/
theorem pad4_length (s : String) (h : s.length ≤ 4) : (pad4 s).length = 4 := by
  unfold pad4
  by_cases hlt : s.length < 4
  · simp only [hlt, if_true]
    rw [String.length_append]
    show (List.replicate (4 - s.length) '0').length + s.length = 4
    rw [List.length_replicate]
    omega
  · simp only [hlt, if_false]
    omega

/-- `format(n, "04d")` has exactly four characters when `n < 10000`. -/
theorem pyFormat04d_length (n : Nat) (h : n < 10000) : (pyFormat04d n).length = 4 :=
  pad4_length _ (pyStrNat_length_le n h)

/-! ## Claims -/

/-- C3: the repository's source consists of exactly the two notebook
documents, and every cell of both documents has `cell_type` either
`markdown` or `code`. -/
theorem c3_two_notebooks_markdown_or_code :
    repository.length = 2 ∧
    ∀ nb ∈ repository, ∀ c ∈ nb,
      c.cell_type = "markdown" ∨ c.cell_type = "code" := by
  constructor
  · rfl
  · decide

/-- C2: no code cell of either notebook defines a function, class, or any
compound construct of its own — every statement is an import, an
assignment, an expression statement or a shell invocation; every call
resolves to an object of an imported external library; the imported
libraries are among astrocut, astropy, astroquery, lightkurve, s3fs and
nest_asyncio; and the only command-line tool invoked is aws-cli. -/
theorem c2_all_computation_external :
    (∀ s ∈ notebookStmts notebook1 ++ notebookStmts notebook2,
      stmtSimple s = true ∧ stmtDefines s = false) ∧
    notebookCallsExternal notebook1 = true ∧
    notebookCallsExternal notebook2 = true ∧
    (∀ m ∈ (notebookImports notebook1 ++ notebookImports notebook2).map moduleRoot,
      m ∈ ["astrocut", "astropy", "astroquery", "lightkurve", "s3fs", "nest_asyncio"]) ∧
    (∀ h ∈ notebookShellHeads notebook1 ++ notebookShellHeads notebook2,
      h = "aws") := by
  refine ⟨by decide, by decide, by decide, by decide, by decide⟩

/-- C7: no statement of either notebook is an error-handling or
control-flow construct (no try/except, no raise, no loop that could
retry, no conditional recovery branch, no with-block). -/
theorem c7_no_error_handling :
    ((notebookStmts notebook1 ++ notebookStmts notebook2).all
      fun s => !stmtErrorHandling s) = true := by
  decide

/-- C8: the notebooks spawn no thread, process, or concurrent task of
their own: the only call whose callee root is a concurrency-related
module is the single `nest_asyncio.apply()` call, the only
concurrency-related import is `nest_asyncio`, and no shell command is
put in the background. -/
theorem c8_single_sequential_execution :
    (concurrencyCalls notebook1).length = 1 ∧
    (∀ c ∈ concurrencyCalls notebook1, isNestAsyncioApply c = true) ∧
    (concurrencyCalls notebook2).length = 0 ∧
    ((notebookImports notebook1 ++ notebookImports notebook2).filter
      fun m => concurrencyModules.contains (moduleRoot m)) = ["nest_asyncio"] ∧
    "&" ∉ notebookShellTokens notebook1 ++ notebookShellTokens notebook2 := by
  refine ⟨by decide, by decide, by decide, by decide, by decide⟩

/-- C9: every S3 access of the notebooks is anonymous: each of the three
aws-cli invocations carries `--no-sign-request`, and the one
`s3fs.S3FileSystem` construction passes `anon=True`. -/
theorem c9_anonymous_s3_access :
    (awsInvocations notebook1 ++ awsInvocations notebook2).length = 3 ∧
    (∀ ts ∈ awsInvocations notebook1 ++ awsInvocations notebook2,
      "--no-sign-request" ∈ ts) ∧
    (s3fsConstructorCalls notebook1 ++ s3fsConstructorCalls notebook2).length = 1 ∧
    (∀ c ∈ s3fsConstructorCalls notebook1 ++ s3fsConstructorCalls notebook2,
      hasAnonTrue c = true) := by
  refine ⟨by decide, by decide, by decide, by decide⟩

/-- C5: the file name passed as the `target_pixel_file` keyword argument
of `cube_cut` is exactly the file name later passed to `lk.read`: both
are the single string "astrocut-result.fits". -/
theorem c5_save_then_load_same_filename :
    targetPixelFileArgs = ["astrocut-result.fits"] ∧
    lkReadArgs = targetPixelFileArgs := by
  refine ⟨by decide, by decide⟩

/-- C6: the notebooks' own code never touches the byte contents of a
FITS file: every call resolves to an external library, the Python
builtin `open` is never called, and every FITS file-name string occurs
only in file-name position (as a string argument to an external call, a
string or f-string bound to a variable, or a shell token). -/
theorem c6_fits_files_opaque :
    notebookCallsExternal notebook1 = true ∧
    notebookCallsExternal notebook2 = true ∧
    "open" ∉ notebookCallRoots notebook1 ++ notebookCallRoots notebook2 ∧
    (∀ s ∈ notebookFitsStrings notebook1, s ∈ notebookFitsFilenamePos notebook1) ∧
    (∀ s ∈ notebookFitsStrings notebook2, s ∈ notebookFitsFilenamePos notebook2) := by
  refine ⟨by decide, by decide, by decide, by decide, by decide⟩

/-- C1 fails on the code: the `conscious-employment` cell (cell index 8
of notebook 1) is a code cell that references the variable `cube_file`
bound by the `obvious-party` cell, hence is not independent, and it
contains three calls rather than exactly one; so the claim's universal
statement, decided over both notebooks, is false. -/
theorem c1_counterexample_dependent_cell :
    notebook1.get? 8 = some cellConsciousEmployment ∧
    cellConsciousEmployment.cell_type = "code" ∧
    cellIndependent notebook1 8 = false ∧
    "cube_file" ∈ cellFree cellConsciousEmployment ∧
    "cube_file" ∈ cellBound cellObviousParty ∧
    cellCallCount cellConsciousEmployment = 3 ∧
    c1ClaimHolds = false := by
  refine ⟨rfl, rfl, by decide, by decide, by decide, by decide, by decide⟩

/-- C1, amended: every statement of both notebooks is a plain import,
assignment, expression or shell command whose calls all resolve to
external libraries, but the cells are not mutually independent — the
cutout cell references `target_crd` and `cube_file` bound by earlier
cells, the plotting cell reads exactly the file the cutout cell saves —
and a code cell may contain zero or several external calls rather than
exactly one. -/
theorem c1_amended_sequential_dependent_examples :
    (∀ s ∈ notebookStmts notebook1 ++ notebookStmts notebook2, stmtSimple s = true) ∧
    notebookCallsExternal notebook1 = true ∧
    notebookCallsExternal notebook2 = true ∧
    "target_crd" ∈ cellFree cellConsciousEmployment ∧
    "target_crd" ∈ cellBound cellWirelessWalker ∧
    "cube_file" ∈ cellFree cellConsciousEmployment ∧
    "cube_file" ∈ cellBound cellObviousParty ∧
    lkReadArgs = targetPixelFileArgs ∧
    cellCallCount cellConsciousEmployment = 3 ∧
    cellCallCount cellRecentAvenue = 0 := by
  refine ⟨by decide, by decide, by decide, by decide, by decide,
    by decide, by decide, by decide, by decide, by decide⟩

/-- C4: instantiating the cube-URI template with sector=11, camera=4,
ccd=1 yields exactly the example URI given in the markdown, with
sector=27, camera=3, ccd=3 (the values the `obvious-party` cell assigns)
it yields the corresponding URI, and the `04d` sector field formats to
exactly four zero-padded digits for every sector below 10000. -/
theorem c4_cube_uri_template (s : Nat) (hs : s < 10000) :
    evalFString (envOf 11 4 1) cubeUriTemplate = exampleCubeUriMarkdown ∧
    evalFString (envOf 27 3 3) cubeUriTemplate =
      "s3://stpubdata/tess/public/mast/tess-s0027-3-3-cube.fits" ∧
    (pyFormat04d s).length = 4 := by
  refine ⟨by decide, by decide, pyFormat04d_length s hs⟩

/-- Witness for C4 at the concrete sector 11. -/
theorem c4_cube_uri_template_witness :
    11 < 10000 ∧
    (evalFString (envOf 11 4 1) cubeUriTemplate = exampleCubeUriMarkdown ∧
      (pyFormat04d 11).length = 4) :=
  ⟨by decide,
    ⟨(c4_cube_uri_template 11 (by decide)).1,
      (c4_cube_uri_template 11 (by decide)).2.2⟩⟩
